/-
Verification of the request-shaping and session-orchestration core of the
Selsa voice-assistant web application (single source file `app.py` with an
embedded JavaScript frontend).

The embedding is shallow: each Python/JavaScript function relevant to the
claims is translated into a total, executable Lean function.

* Wall-clock times (`time.time()`) are modelled as rationals (ℚ).
* The closure-captured `last_called` dictionary of the `rate_limit`
  decorator is modelled as an association list `List (String × ℚ)` with
  Python-dict update semantics (`insertEntry` overwrites the entry for an
  existing key, `lookupEntry` finds it).
* Flask JSON responses are modelled as a status code plus an association
  list of string key/value pairs (`HttpResponse`); fields of the success
  bodies that no claim touches (`timestamp`, `metadata`) are omitted.
* Fallible external operations (base64 decoding, `Image.open`, the
  generative-AI calls) are passed in as `Except`-valued parameters; the
  `try/except` boundary of each handler is the `match` on their results,
  so a handler returning a 500 response models "structured error instead
  of a crash".
* Python `str.strip()` is modelled by `pyStrip` (drop leading and
  trailing whitespace characters from the character list).
-/
import Mathlib

set_option maxRecDepth 4096

/-! ## Rate limiter (`rate_limit` decorator, app.py lines 85-101) -/

/-- Admission outcome of the rate limiter. -/
inductive Admission where
  | allowed
  | rejected
deriving DecidableEq, Repr

/-- The closure-captured `last_called` dictionary of one decorator
application: caller identifier to the time of the last accepted call. -/
def LimState := List (String × ℚ)
deriving DecidableEq, Repr

/-- Dictionary lookup: `user_id in last_called` / `last_called[user_id]`. -/
def lookupEntry : LimState → String → Option ℚ
  | [], _ => none
  | e :: rest, c => if e.1 = c then some e.2 else lookupEntry rest c

/-- Dictionary update: `last_called[user_id] = now`. -/
def insertEntry : LimState → String → ℚ → LimState
  | [], c, t => [(c, t)]
  | e :: rest, c, t => if e.1 = c then (e.1, t) :: rest else e :: insertEntry rest c t

/-- The request metadata the decorator reads: the optional `X-User-ID`
header and the network-derived source address `request.remote_addr`. -/
structure RequestMeta where
  header_XUserID : Option String
  remote_addr : String
deriving DecidableEq, Repr

/-- `request.headers.get('X-User-ID', request.remote_addr)` (line 91). -/
def request_user_id (req : RequestMeta) : String :=
  req.header_XUserID.getD req.remote_addr

/-- Core admission logic of the `rate_limit` wrapper (lines 93-98):
if the caller has an entry and `now - last < 60 / max_per_minute` the
call is rejected and the state is left untouched (the wrapper returns
before the update); otherwise the call is allowed and
`last_called[user_id] = now` is executed. -/
def rate_limit (max_per_minute : ℚ) (st : LimState) (user_id : String) (now : ℚ) :
    Admission × LimState :=
  match lookupEntry st user_id with
  | some last =>
      if now - last < 60 / max_per_minute then (Admission.rejected, st)
      else (Admission.allowed, insertEntry st user_id now)
  | none => (Admission.allowed, insertEntry st user_id now)

/-- A JSON response: HTTP status code plus the body's string fields. -/
structure HttpResponse where
  status : Nat
  body : List (String × String)
deriving DecidableEq, Repr

/-- The full decorator wrapper (lines 89-99): on rejection it returns
`({'error': 'Rate limit exceeded'}, 429)` without touching the state and
without calling the wrapped handler `f`; on admission it records the time
and calls `f`.  The final `Bool` records whether `f` was invoked. -/
def rate_limited_call (max_per_minute : ℚ) (f : Unit → HttpResponse)
    (st : LimState) (req : RequestMeta) (now : ℚ) :
    HttpResponse × LimState × Bool :=
  let r := rate_limit max_per_minute st (request_user_id req) now
  match r.1 with
  | Admission.rejected =>
      ({ status := 429, body := [("error", "Rate limit exceeded")] }, r.2, false)
  | Admission.allowed => (f (), r.2, true)

/-- A sequence of admissions by one caller at the given times (used for the
31-calls-in-60-seconds scenario). -/
def runCalls (max_per_minute : ℚ) (user_id : String) :
    LimState → List ℚ → List Admission
  | _, [] => []
  | st, t :: ts =>
      let r := rate_limit max_per_minute st user_id t
      r.1 :: runCalls max_per_minute user_id r.2 ts

/-- The HTTP statuses produced by a sequence of calls through the decorator
wrapper by one caller at the given times. -/
def runStatuses (max_per_minute : ℚ) (f : Unit → HttpResponse) (req : RequestMeta) :
    LimState → List ℚ → List Nat
  | _, [] => []
  | st, t :: ts =>
      let r := rate_limited_call max_per_minute f st req t
      r.1.status :: runStatuses max_per_minute f req r.2.1 ts

/-- The per-process server state: one closure dictionary per decorated
endpoint (`@rate_limit(30)` on `/api/chat`, `@rate_limit(20)` on
`/api/vision` each create their own `last_called = {}`). -/
structure ServerState where
  chat_last_called : LimState
  vision_last_called : LimState

/-- The `/api/chat` route: the 30-per-minute wrapper around the chat body,
reading and writing only the chat endpoint's dictionary. -/
def api_chat (chatBody : Unit → HttpResponse) (ss : ServerState)
    (req : RequestMeta) (now : ℚ) : HttpResponse × ServerState × Bool :=
  let r := rate_limited_call 30 chatBody ss.chat_last_called req now
  (r.1, { ss with chat_last_called := r.2.1 }, r.2.2)

/-- The `/api/vision` route: the 20-per-minute wrapper around the vision
body, reading and writing only the vision endpoint's dictionary. -/
def api_vision (visionBody : Unit → HttpResponse) (ss : ServerState)
    (req : RequestMeta) (now : ℚ) : HttpResponse × ServerState × Bool :=
  let r := rate_limited_call 20 visionBody ss.vision_last_called req now
  (r.1, { ss with vision_last_called := r.2.1 }, r.2.2)

/-! ## Helper lemmas -/

theorem lookupEntry_insertEntry_self (st : LimState) (c : String) (t : ℚ) :
    lookupEntry (insertEntry st c t) c = some t := by
  induction st with
  | nil => simp [insertEntry, lookupEntry]
  | cons e rest ih =>
      by_cases h : e.1 = c
      · simp [insertEntry, lookupEntry, h]
      · simp [insertEntry, lookupEntry, h, ih]

/-! ## Claim theorems -/

/-- C1: for every caller identifier, the first admit call (no stored entry)
is Allowed; with a stored entry the call is Rejected exactly when
`now - lastAcceptedAt < 60 / maxPerMinute` — leaving the stored state
untouched — and Allowed once that interval has elapsed; and
`lastAcceptedAt` is updated to `now` exactly on Allowed outcomes. -/
theorem rate_limit_admission_spec (mpm : ℚ) (st : LimState) (c : String) (now : ℚ) :
    (lookupEntry st c = none →
      (rate_limit mpm st c now).1 = Admission.allowed ∧
      lookupEntry (rate_limit mpm st c now).2 c = some now) ∧
    (∀ last, lookupEntry st c = some last →
      (now - last < 60 / mpm →
        rate_limit mpm st c now = (Admission.rejected, st)) ∧
      (¬ now - last < 60 / mpm →
        (rate_limit mpm st c now).1 = Admission.allowed ∧
        lookupEntry (rate_limit mpm st c now).2 c = some now)) := by
  refine ⟨?_, ?_⟩
  · intro h
    simp [rate_limit, h, lookupEntry_insertEntry_self]
  · intro last h
    refine ⟨?_, ?_⟩
    · intro hlt
      simp [rate_limit, h, hlt]
    · intro hge
      simp [rate_limit, h, hge, lookupEntry_insertEntry_self]

/-- Witness for C1: caller "a" with no entry is allowed and recorded at
time 0; a second call at time 1 (interval 2 at 30/min) is rejected with
the state untouched; a call at time 2 is allowed again. -/
theorem rate_limit_admission_spec_witness :
    ((rate_limit 30 [] "a" 0).1 = Admission.allowed ∧
      lookupEntry (rate_limit 30 [] "a" 0).2 "a" = some 0) ∧
    rate_limit 30 [("a", 0)] "a" 1 = (Admission.rejected, [("a", 0)]) ∧
    (rate_limit 30 [("a", 0)] "a" 2).1 = Admission.allowed :=
  ⟨(rate_limit_admission_spec 30 [] "a" 0).1 (by rfl),
   ((rate_limit_admission_spec 30 [("a", 0)] "a" 1).2 0 (by rfl)).1 (by norm_num),
   (((rate_limit_admission_spec 30 [("a", 0)] "a" 2).2 0 (by rfl)).2 (by norm_num)).1⟩

/-- State component of the decorator wrapper: its resulting dictionary is
exactly the one produced by the admission logic. -/
theorem rate_limited_call_state (mpm : ℚ) (f : Unit → HttpResponse)
    (st : LimState) (req : RequestMeta) (now : ℚ) :
    (rate_limited_call mpm f st req now).2.1 =
      (rate_limit mpm st (request_user_id req) now).2 := by
  unfold rate_limited_call
  cases h : (rate_limit mpm st (request_user_id req) now).1 <;> simp [h]

/-- C3 counterexample: one caller making 31 chat calls at times
0,1,2,…,30 seconds — evenly spaced strictly under the 2-second interval of
the 30-per-minute configuration, all within 60 seconds — does NOT get
calls 1–30 Allowed and call 31 Rejected: the outcomes alternate, with
call 2 already Rejected. -/
theorem chat_31_calls_counterexample :
    runCalls 30 "c" []
      [0, 1, 2, 3, 4, 5, 6, 7, 8, 9, 10, 11, 12, 13, 14, 15, 16, 17, 18, 19,
       20, 21, 22, 23, 24, 25, 26, 27, 28, 29, 30] ≠
    List.replicate 30 Admission.allowed ++ [Admission.rejected] := by
  have h : runCalls 30 "c" []
      [0, 1, 2, 3, 4, 5, 6, 7, 8, 9, 10, 11, 12, 13, 14, 15, 16, 17, 18, 19,
       20, 21, 22, 23, 24, 25, 26, 27, 28, 29, 30] =
      [Admission.allowed, Admission.rejected, Admission.allowed, Admission.rejected,
       Admission.allowed, Admission.rejected, Admission.allowed, Admission.rejected,
       Admission.allowed, Admission.rejected, Admission.allowed, Admission.rejected,
       Admission.allowed, Admission.rejected, Admission.allowed, Admission.rejected,
       Admission.allowed, Admission.rejected, Admission.allowed, Admission.rejected,
       Admission.allowed, Admission.rejected, Admission.allowed, Admission.rejected,
       Admission.allowed, Admission.rejected, Admission.allowed, Admission.rejected,
       Admission.allowed, Admission.rejected, Admission.allowed] := by
    norm_num [runCalls, rate_limit, lookupEntry, insertEntry]
  rw [h]
  decide

/-- C3 amended: under the chat endpoint's 30-per-minute configuration
(2-second minimum interval), a caller whose first 30 calls are spaced
exactly 2 seconds apart (times 0,2,…,58) and whose 31st call arrives less
than 2 seconds later (time 59, so all 31 calls fall within 60 seconds)
gets calls 1–30 admitted (the wrapped handler's 200) and call 31 Rejected
with a 429 response. -/
theorem chat_31_calls_amended :
    runStatuses 30 (fun _ => { status := 200, body := [("response", "ok")] })
      { header_XUserID := none, remote_addr := "9.9.9.9" } []
      [0, 2, 4, 6, 8, 10, 12, 14, 16, 18, 20, 22, 24, 26, 28, 30, 32, 34, 36,
       38, 40, 42, 44, 46, 48, 50, 52, 54, 56, 58, 59] =
    List.replicate 30 200 ++ [429] := by
  have h : runStatuses 30 (fun _ => { status := 200, body := [("response", "ok")] })
      { header_XUserID := none, remote_addr := "9.9.9.9" } []
      [0, 2, 4, 6, 8, 10, 12, 14, 16, 18, 20, 22, 24, 26, 28, 30, 32, 34, 36,
       38, 40, 42, 44, 46, 48, 50, 52, 54, 56, 58, 59] =
      [200, 200, 200, 200, 200, 200, 200, 200, 200, 200,
       200, 200, 200, 200, 200, 200, 200, 200, 200, 200,
       200, 200, 200, 200, 200, 200, 200, 200, 200, 200, 429] := by
    norm_num [runStatuses, rate_limited_call, rate_limit, lookupEntry, insertEntry,
      request_user_id]
  rw [h]
  decide

/-- C5: a request whose admission is Rejected gets the 429 response with
the generic `Rate limit exceeded` body, the caller's stored state is left
unchanged, and the wrapped handler is never invoked (so nothing the
handler would do — history shaping, outward send — happens). -/
theorem rate_limited_call_rejected (mpm : ℚ) (f : Unit → HttpResponse)
    (st : LimState) (req : RequestMeta) (now last : ℚ)
    (hlast : lookupEntry st (request_user_id req) = some last)
    (hlt : now - last < 60 / mpm) :
    rate_limited_call mpm f st req now =
      ({ status := 429, body := [("error", "Rate limit exceeded")] }, st, false) := by
  simp [rate_limited_call, rate_limit, hlast, hlt]

/-- Witness for C5: caller `1.2.3.4` (no header) last accepted at time 0
is rejected at time 1 under the 30-per-minute configuration. -/
theorem rate_limited_call_rejected_witness :
    rate_limited_call 30 (fun _ => { status := 200, body := [] })
      [("1.2.3.4", 0)] { header_XUserID := none, remote_addr := "1.2.3.4" } 1 =
      ({ status := 429, body := [("error", "Rate limit exceeded")] },
        [("1.2.3.4", 0)], false) :=
  rate_limited_call_rejected 30 (fun _ => { status := 200, body := [] })
    [("1.2.3.4", 0)] { header_XUserID := none, remote_addr := "1.2.3.4" } 1 0
    (by rfl) (by norm_num)

/-- C7: the rate-limit caller identifier is the `X-User-ID` header when
present and the network source address otherwise; and the chat endpoint's
30-per-minute dictionary and the vision endpoint's 20-per-minute
dictionary are independent: a chat call leaves the vision dictionary (and
hence any vision admission decision) unchanged, and vice versa. -/
theorem endpoint_rate_limits_independent (f g : Unit → HttpResponse)
    (ss : ServerState) (req : RequestMeta) (now : ℚ) (c : String) (t : ℚ) :
    (∀ h, req.header_XUserID = some h → request_user_id req = h) ∧
    (req.header_XUserID = none → request_user_id req = req.remote_addr) ∧
    (api_chat f ss req now).2.1.vision_last_called = ss.vision_last_called ∧
    (api_vision g ss req now).2.1.chat_last_called = ss.chat_last_called ∧
    rate_limit 20 (api_chat f ss req now).2.1.vision_last_called c t =
      rate_limit 20 ss.vision_last_called c t ∧
    rate_limit 30 (api_vision g ss req now).2.1.chat_last_called c t =
      rate_limit 30 ss.chat_last_called c t := by
  refine ⟨?_, ?_, rfl, rfl, rfl, rfl⟩
  · intro h hh
    simp [request_user_id, hh]
  · intro hh
    simp [request_user_id, hh]

/-- Witness for C7: with the header present the identifier is the header
value; without it, the source address; and a concrete chat call leaves a
concrete vision dictionary untouched. -/
theorem endpoint_rate_limits_independent_witness :
    request_user_id { header_XUserID := some "u", remote_addr := "1.2.3.4" } = "u" ∧
    request_user_id { header_XUserID := none, remote_addr := "1.2.3.4" } = "1.2.3.4" ∧
    (api_chat (fun _ => { status := 200, body := [] })
        { chat_last_called := [], vision_last_called := [("u", 0)] }
        { header_XUserID := some "u", remote_addr := "1.2.3.4" } 5).2.1.vision_last_called =
      [("u", 0)] :=
  ⟨(endpoint_rate_limits_independent (fun _ => { status := 200, body := [] })
      (fun _ => { status := 200, body := [] })
      { chat_last_called := [], vision_last_called := [("u", 0)] }
      { header_XUserID := some "u", remote_addr := "1.2.3.4" } 5 "u" 0).1 "u" rfl,
   (endpoint_rate_limits_independent (fun _ => { status := 200, body := [] })
      (fun _ => { status := 200, body := [] })
      { chat_last_called := [], vision_last_called := [("u", 0)] }
      { header_XUserID := none, remote_addr := "1.2.3.4" } 5 "u" 0).2.1 rfl,
   (endpoint_rate_limits_independent (fun _ => { status := 200, body := [] })
      (fun _ => { status := 200, body := [] })
      { chat_last_called := [], vision_last_called := [("u", 0)] }
      { header_XUserID := some "u", remote_addr := "1.2.3.4" } 5 "u" 0).2.2.1⟩

/-! ## Conversation shaping and the chat handler (app.py lines 54-79, 595-640) -/

/-- The fixed persona preamble `SELSA_PERSONALITY` (lines 54-79). -/
def SELSA_PERSONALITY : String :=
  "You are Selsa, a highly advanced personal AI assistant inspired by JARVIS from Iron Man. \n" ++
  "\n" ++
  "Your characteristics:\n" ++
  "- Intelligent, witty, and slightly sarcastic but always helpful\n" ++
  "- You speak naturally and conversationally, like a trusted companion\n" ++
  "- You\x27re proactive - you anticipate needs and offer suggestions\n" ++
  "- You have a dry sense of humor but know when to be serious\n" ++
  "- You\x27re concise but thorough - no unnecessary verbosity\n" ++
  "- You refer to your user respectfully, occasionally with light humor\n" ++
  "- You\x27re confident in your capabilities but honest about limitations\n" ++
  "\n" ++
  "Communication style:\n" ++
  "- Keep responses conversational and natural\n" ++
  "- Use \"I\" and personal language (e.g., \"I\x27ve found that...\", \"Let me help you...\")\n" ++
  "- Occasionally add personality (e.g., \"Certainly, sir\" or light quips)\n" ++
  "- For voice responses, keep them brief and engaging - avoid walls of text\n" ++
  "- Break complex information into digestible pieces\n" ++
  "- Ask clarifying questions when needed\n" ++
  "\n" ++
  "Current capabilities you should mention when relevant:\n" ++
  "- Real-time web search and information retrieval\n" ++
  "- Image analysis and visual understanding\n" ++
  "- Natural conversation with context awareness\n" ++
  "- Multi-modal interactions (text, voice, vision)\n" ++
  "\n" ++
  "Always be helpful, engaging, and make interactions feel natural and enjoyable."

/-- Python `str.strip()`: remove leading and trailing whitespace. -/
def pyStrip (s : String) : String :=
  String.mk (((s.data.dropWhile Char.isWhitespace).reverse.dropWhile Char.isWhitespace).reverse)

/-- One stored dialogue turn `{role, content}` as the frontend sends it in
the `history` field (role is the string `'user'` or `'assistant'`). -/
structure HistMsg where
  role : String
  content : String
deriving DecidableEq, Repr

/-- One outward context entry `{'role': role, 'parts': [{'text': ...}]}`. -/
structure ContextPart where
  role : String
  text : String
deriving DecidableEq, Repr

/-- The body of the shaping loop (lines 611-616):
`role = "user" if msg['role'] == 'user' else "model"` together with the
`{'role': role, 'parts': [{'text': msg['content']}]}` record. -/
def shape_msg (msg : HistMsg) : ContextPart :=
  { role := if msg.role = "user" then "user" else "model", text := msg.content }

/-- The shaping loop `for msg in chat_history[-10:]` (lines 609-616):
Python `chat_history[-10:]` is the trailing window of at most 10 turns,
which `List.drop (length - 10)` computes. -/
def conversation_parts (chat_history : List HistMsg) : List ContextPart :=
  (chat_history.drop (chat_history.length - 10)).map shape_msg

/-- The JSON body of a `/api/chat` request (absent fields are `none`;
`data.get('message', '')` is `(message.getD "")`). -/
structure ChatRequest where
  message : Option String
  userId : Option String
  history : List HistMsg
deriving Repr

/-- The `/api/chat` handler body (lines 599-640).  `send` abstracts
`chat_model.start_chat(history=...)` followed by `chat.send_message(...)`
(its `Except.error` case is the `except` branch, line 635); `nowStr` is
the formatted wall-clock time interpolated into the prompt.  The `Bool`
result records whether the outward send was attempted. -/
def chat_handler (send : List ContextPart → String → Except String String)
    (nowStr : String) (data : ChatRequest) : HttpResponse × Bool :=
  let user_message := pyStrip (data.message.getD "")
  if user_message = "" then
    ({ status := 400, body := [("error", "Message is required")] }, false)
  else
    let parts := conversation_parts data.history
    let full_prompt :=
      SELSA_PERSONALITY ++ "\n\nCurrent time: " ++ nowStr ++ "\n\nUser: " ++ user_message
    match send parts full_prompt with
    | Except.ok text => ({ status := 200, body := [("response", text)] }, true)
    | Except.error e =>
        ({ status := 500,
           body := [("error", "I encountered an error. Please try again."), ("details", e)] },
         true)

/-- C2: outward context shaping maps the empty history to the empty
sequence; for a history ending in a 10-turn suffix it keeps exactly that
trailing window, in original order; a history of at most 10 turns is kept
whole; `'user'` turns get role marker `"user"` and `'assistant'` turns get
role marker `"model"` with the text preserved; and with an empty history
the chat handler still proceeds to the outward send (given a nonempty
message). -/
theorem conversation_parts_spec :
    conversation_parts [] = [] ∧
    (∀ pre suf : List HistMsg, suf.length = 10 →
      conversation_parts (pre ++ suf) = suf.map shape_msg) ∧
    (∀ h : List HistMsg, h.length ≤ 10 → conversation_parts h = h.map shape_msg) ∧
    (∀ c, shape_msg { role := "user", content := c } = { role := "user", text := c } ∧
      shape_msg { role := "assistant", content := c } = { role := "model", text := c }) ∧
    (∀ send nowStr data, data.history = [] → pyStrip (data.message.getD "") ≠ "" →
      (chat_handler send nowStr data).2 = true) := by
  refine ⟨rfl, ?_, ?_, ?_, ?_⟩
  · intro pre suf hsuf
    have hlen : (pre ++ suf).length - 10 = pre.length := by
      simp [List.length_append, hsuf]
    simp only [conversation_parts, hlen, List.drop_left]
  · intro h hlen
    simp [conversation_parts, Nat.sub_eq_zero_of_le hlen]
  · intro c
    exact ⟨rfl, rfl⟩
  · intro send nowStr data hhist hm
    simp only [chat_handler, if_neg hm]
    split <;> rfl

/-- Witness for C2: a 15-turn history keeps exactly the trailing 10 turns;
an empty-history chat request with message "hello" still reaches the
outward send. -/
theorem conversation_parts_spec_witness :
    conversation_parts
        (List.replicate 5 { role := "user", content := "hi" } ++
          List.replicate 10 { role := "assistant", content := "yo" }) =
      (List.replicate 10 { role := "assistant", content := "yo" }).map shape_msg ∧
    (chat_handler (fun _ _ => Except.ok "ok") "t"
        { message := some "hello", userId := none, history := [] }).2 = true :=
  ⟨conversation_parts_spec.2.1 _ _ (by simp),
   conversation_parts_spec.2.2.2.2 _ _ _ rfl (by decide)⟩

/-- C10: a chat request whose message is missing, empty, or whitespace-only
(the message is stripped before the required-field check) gets the 400
response with body `{'error': 'Message is required'}` and no outward call;
a whitespace-only message is handled identically to a missing one. -/
theorem chat_handler_missing_message :
    (∀ send nowStr data, pyStrip (data.message.getD "") = "" →
      chat_handler send nowStr data =
        ({ status := 400, body := [("error", "Message is required")] }, false)) ∧
    (∀ send nowStr ws uid hist, pyStrip ws = "" →
      chat_handler send nowStr { message := some ws, userId := uid, history := hist } =
        chat_handler send nowStr { message := none, userId := uid, history := hist }) := by
  have h0 : pyStrip "" = "" := rfl
  constructor
  · intro send nowStr data h
    simp [chat_handler, h]
  · intro send nowStr ws uid hist h
    simp [chat_handler, h, h0]

/-- Witness for C10: a whitespace-only message `"   "` yields the 400
`Message is required` response with no outward call, and is handled
identically to a missing message. -/
theorem chat_handler_missing_message_witness :
    chat_handler (fun _ _ => Except.ok "ok") "t"
        { message := some "   ", userId := none, history := [] } =
      ({ status := 400, body := [("error", "Message is required")] }, false) ∧
    chat_handler (fun _ _ => Except.ok "ok") "t"
        { message := some "   ", userId := none, history := [] } =
      chat_handler (fun _ _ => Except.ok "ok") "t"
        { message := none, userId := none, history := [] } :=
  ⟨chat_handler_missing_message.1 _ _ _ (by decide),
   chat_handler_missing_message.2 _ _ _ _ _ (by decide)⟩

/-! ## Frontend send cycle (embedded JS, lines 409-496) -/

/-- How the `fetch` of one send cycle ends: `resolved` means the request
and `response.json()` both succeeded (carrying the parsed body's optional
`error` field and its `response` text); `thrown` means the fetch or the
JSON parse raised (network or parse failure), entering the `catch` block. -/
inductive FetchOutcome where
  | resolved (error : Option String) (response : String)
  | thrown (err : String)

/-- The frontend state touched by a send cycle: `currentImage` (the
attached image, a data URL), the `chatHistory` array, and the text
input's value. -/
structure ClientState where
  currentImage : Option String
  chatHistory : List HistMsg
  inputValue : String
deriving DecidableEq, Repr

/-- `clearImage()` (lines 422-426): detaches the current image (the DOM
preview updates are not modelled). -/
def clearImage (st : ClientState) : ClientState :=
  { st with currentImage := none }

/-- `sendMessage()` (lines 428-496) as a function of the fetch outcome.
The returned `Nat` counts how many times `clearImage()` ran during the
cycle.  In the source, `clearImage()` is the last statement of the `try`
block: it runs when the fetch resolved and parsed (whether or not the
body carried an application-level `error`), and is skipped when the
`catch` block is entered; the `finally` block only hides the loading
indicator. -/
def sendMessage (st : ClientState) (outcome : FetchOutcome) : ClientState × Nat :=
  let message := pyStrip st.inputValue
  if message = "" ∧ st.currentImage = none then (st, 0)
  else
    let st1 :=
      if message ≠ "" then
        { st with
            chatHistory := st.chatHistory ++ [{ role := "user", content := message }],
            inputValue := "" }
      else { st with inputValue := "" }
    match outcome with
    | FetchOutcome.resolved err resp =>
        match err with
        | some _ => (clearImage st1, 1)
        | none =>
            (clearImage
              { st1 with
                  chatHistory := st1.chatHistory ++ [{ role := "assistant", content := resp }] },
             1)
    | FetchOutcome.thrown _ => (st1, 0)

/-- C4 counterexample: a send cycle with an attached image whose fetch
throws (network failure) clears the image zero times — it stays attached
— contradicting "cleared exactly once after the send attempt, whether the
attempt succeeds or fails (including network or parse failures)". -/
theorem sendMessage_thrown_counterexample :
    (sendMessage { currentImage := some "img", chatHistory := [], inputValue := "hi" }
        (FetchOutcome.thrown "Failed to fetch")).2 = 0 ∧
    (sendMessage { currentImage := some "img", chatHistory := [], inputValue := "hi" }
        (FetchOutcome.thrown "Failed to fetch")).1.currentImage = some "img" := by
  constructor <;> decide

/-- C4 amended: in every send cycle that actually attempts a send (some
message or image present), the attached image is cleared exactly once
when the fetch resolves and its body parses — on HTTP success or error
alike — but it is NOT cleared when the fetch or parse throws (network or
parse failure): the `catch` path leaves the image attached. -/
theorem sendMessage_clear_policy (st : ClientState) (err : Option String) (resp e : String)
    (hattempt : ¬ (pyStrip st.inputValue = "" ∧ st.currentImage = none)) :
    ((sendMessage st (FetchOutcome.resolved err resp)).2 = 1 ∧
      (sendMessage st (FetchOutcome.resolved err resp)).1.currentImage = none) ∧
    ((sendMessage st (FetchOutcome.thrown e)).2 = 0 ∧
      (sendMessage st (FetchOutcome.thrown e)).1.currentImage = st.currentImage) := by
  constructor
  · cases err <;> simp [sendMessage, hattempt, clearImage]
  · constructor
    · simp only [sendMessage, if_neg hattempt]
    · simp only [sendMessage, if_neg hattempt]
      split <;> rfl

/-- Witness for C4 (amended): with message "hi" and an attached image, a
resolved cycle clears the image exactly once; a thrown cycle clears it
zero times and leaves it attached. -/
theorem sendMessage_clear_policy_witness :
    ((sendMessage { currentImage := some "img", chatHistory := [], inputValue := "hi" }
        (FetchOutcome.resolved none "yo")).2 = 1 ∧
      (sendMessage { currentImage := some "img", chatHistory := [], inputValue := "hi" }
        (FetchOutcome.resolved none "yo")).1.currentImage = none) ∧
    ((sendMessage { currentImage := some "img", chatHistory := [], inputValue := "hi" }
        (FetchOutcome.thrown "err")).2 = 0 ∧
      (sendMessage { currentImage := some "img", chatHistory := [], inputValue := "hi" }
        (FetchOutcome.thrown "err")).1.currentImage = some "img") :=
  sendMessage_clear_policy
    { currentImage := some "img", chatHistory := [], inputValue := "hi" }
    none "yo" "err" (by decide)

/-! ## Visualizer (embedded JS, `CloudSphereVisualizer`, lines 288-374) -/

/-- The visualizer state: the `isRunning` flag plus a count of currently
active render loops (self-rescheduling `draw()` chains); `draw()` returns
immediately when `isRunning` is false, so only a `start()` that flips the
flag spawns a new chain. -/
structure CloudSphereVisualizer where
  isRunning : Bool
  activeLoops : Nat
deriving DecidableEq, Repr

/-- `start()` (lines 357-362): only when not already running, set the flag
and kick off a new `draw()` chain. -/
def visualizer_start (v : CloudSphereVisualizer) : CloudSphereVisualizer :=
  if v.isRunning then v else { isRunning := true, activeLoops := v.activeLoops + 1 }

/-- `stop()` (lines 364-373): clear the flag; the running draw chain
observes it at its next frame and terminates (the deferred canvas clear
is not modelled). -/
def visualizer_stop (_ : CloudSphereVisualizer) : CloudSphereVisualizer :=
  { isRunning := false, activeLoops := 0 }

/-- The loop-count invariant (one active chain exactly when running) is
preserved by `start()` and `stop()`, so it holds in every reachable
state. -/
theorem visualizer_wf_preserved (v : CloudSphereVisualizer)
    (hwf : v.activeLoops = if v.isRunning then 1 else 0) :
    (visualizer_start v).activeLoops =
      (if (visualizer_start v).isRunning then 1 else 0) ∧
    (visualizer_stop v).activeLoops =
      (if (visualizer_stop v).isRunning then 1 else 0) := by
  rcases v with ⟨run, loops⟩
  cases run <;> simp_all [visualizer_start, visualizer_stop]

/-- C9: `start()` is idempotent — from any state satisfying the loop-count
invariant, two consecutive `start()` calls leave exactly one active render
loop, the second call (and any call while already running) being a
no-op. -/
theorem visualizer_start_idempotent (v : CloudSphereVisualizer)
    (hwf : v.activeLoops = if v.isRunning then 1 else 0) :
    visualizer_start (visualizer_start v) = visualizer_start v ∧
    (visualizer_start (visualizer_start v)).activeLoops = 1 ∧
    (v.isRunning = true → visualizer_start v = v) := by
  rcases v with ⟨run, loops⟩
  cases run <;> simp_all [visualizer_start]

/-- Witness for C9: from the initial stopped state, two `start()` calls
coincide with one and leave exactly one active render loop. -/
theorem visualizer_start_idempotent_witness :
    visualizer_start (visualizer_start { isRunning := false, activeLoops := 0 }) =
      visualizer_start { isRunning := false, activeLoops := 0 } ∧
    (visualizer_start
        (visualizer_start { isRunning := false, activeLoops := 0 })).activeLoops = 1 :=
  ⟨(visualizer_start_idempotent { isRunning := false, activeLoops := 0 } (by decide)).1,
   (visualizer_start_idempotent { isRunning := false, activeLoops := 0 } (by decide)).2.1⟩

/-! ## Vision endpoint (`vision_analysis`, app.py lines 643-679) -/

/-- Split a character list at every occurrence of `sep` (the groups, in
order, with separators removed) — the semantics of Python `str.split`. -/
def splitOnChar (sep : Char) : List Char → List (List Char)
  | [] => [[]]
  | c :: rest =>
      match splitOnChar sep rest with
      | [] => [[]]
      | grp :: grps => if c = sep then [] :: grp :: grps else (c :: grp) :: grps

/-- Python `s.split(sep)` for a one-character separator. -/
def pySplit (sep : Char) (s : String) : List String :=
  (splitOnChar sep s.data).map String.mk

/-- The payload extraction (lines 656-657):
`if ',' in image_data: image_data = image_data.split(',')[1]`
(a data URL keeps only the part after the first comma). -/
def payload_of (image_data : String) : String :=
  if ',' ∈ image_data.data then (pySplit ',' image_data).getD 1 "" else image_data

/-- The JSON body of a `/api/vision` request (absent fields are `none`). -/
structure VisionRequest where
  image : Option String
  prompt : Option String
deriving Repr

/-- `data.get('prompt', 'Analyze this image.')` (line 650): the prompt
field with its server-side default. -/
def vision_prompt_field (data : VisionRequest) : String :=
  data.prompt.getD "Analyze this image."

/-- The outward vision prompt (line 663):
`f"{SELSA_PERSONALITY}\n\nAnalyze this image: {prompt}"`. -/
def vision_prompt (prompt : String) : String :=
  SELSA_PERSONALITY ++ "\n\nAnalyze this image: " ++ prompt

/-- The `/api/vision` handler body (lines 647-679).  `b64decode` abstracts
`base64.b64decode`, `image_open` abstracts `Image.open(BytesIO(...))`, and
`generate` abstracts `vision_model.generate_content`; an `Except.error`
from any of them is the exception the `except` branch (line 674) turns
into the structured 500 JSON response — the handler is a total function,
so no request terminates the process. -/
def vision_analysis {β γ : Type} (b64decode : String → Except String β)
    (image_open : β → Except String γ) (generate : String → γ → Except String String)
    (data : VisionRequest) : HttpResponse :=
  let image_data := data.image.getD ""
  let prompt := vision_prompt_field data
  if image_data = "" then { status := 400, body := [("error", "Image required")] }
  else
    match b64decode (payload_of image_data) with
    | Except.error e =>
        { status := 500, body := [("error", "Failed to analyze image"), ("details", e)] }
    | Except.ok image_bytes =>
        match image_open image_bytes with
        | Except.error e =>
            { status := 500, body := [("error", "Failed to analyze image"), ("details", e)] }
        | Except.ok image =>
            match generate (vision_prompt prompt) image with
            | Except.error e =>
                { status := 500,
                  body := [("error", "Failed to analyze image"), ("details", e)] }
            | Except.ok text => { status := 200, body := [("response", text)] }

/-- C6: a vision request whose (nonempty) image payload fails base64
decoding yields the structured 500 JSON error response — the exception is
caught, not propagated, and the handler (a total function) never
terminates the process. -/
theorem vision_analysis_decode_error {β γ : Type} (b64decode : String → Except String β)
    (image_open : β → Except String γ) (generate : String → γ → Except String String)
    (data : VisionRequest) (e : String)
    (himg : data.image.getD "" ≠ "")
    (hdec : b64decode (payload_of (data.image.getD "")) = Except.error e) :
    vision_analysis b64decode image_open generate data =
      { status := 500, body := [("error", "Failed to analyze image"), ("details", e)] } := by
  simp [vision_analysis, himg, hdec]

/-- Witness for C6: a data-URL image whose base64 tail is malformed gets
the 500 `Failed to analyze image` response. -/
theorem vision_analysis_decode_error_witness :
    vision_analysis (fun _ => (Except.error "Invalid base64-encoded string" : Except String Unit))
      (fun _ => (Except.ok () : Except String Unit)) (fun _ _ => Except.ok "ok")
      { image := some "data:image/png;base64,!!!", prompt := none } =
      { status := 500,
        body := [("error", "Failed to analyze image"),
          ("details", "Invalid base64-encoded string")] } :=
  vision_analysis_decode_error _ _ _
    { image := some "data:image/png;base64,!!!", prompt := none }
    "Invalid base64-encoded string" (by decide) rfl

/-- C8 counterexample: with the prompt field absent, the prompt the
handler uses is NOT the period-free `"Analyze this image"` the claim
states. -/
theorem vision_default_prompt_counterexample :
    vision_prompt_field { image := some "abc", prompt := none } ≠ "Analyze this image" := by
  decide

/-- C8 amended: with the prompt field absent, the prompt defaults to
`"Analyze this image."` (with a trailing period), and the outward vision
request is built from exactly that default (shown by echoing the prompt
the external call receives). -/
theorem vision_default_prompt {β γ : Type} (b64decode : String → Except String β)
    (image_open : β → Except String γ) (data : VisionRequest)
    (image_bytes : β) (image : γ)
    (hprompt : data.prompt = none)
    (himg : data.image.getD "" ≠ "")
    (hdec : b64decode (payload_of (data.image.getD "")) = Except.ok image_bytes)
    (hopen : image_open image_bytes = Except.ok image) :
    vision_prompt_field data = "Analyze this image." ∧
    vision_analysis b64decode image_open (fun p _ => Except.ok p) data =
      { status := 200, body := [("response", vision_prompt "Analyze this image.")] } := by
  constructor
  · simp [vision_prompt_field, hprompt]
  · simp [vision_analysis, himg, hdec, hopen, vision_prompt_field, hprompt]

/-- Witness for C8 (amended): a concrete promptless request produces the
outward prompt built from `"Analyze this image."`. -/
theorem vision_default_prompt_witness :
    vision_prompt_field { image := some "abc", prompt := none } = "Analyze this image." ∧
    vision_analysis (fun s => (Except.ok s : Except String String))
      (fun b => (Except.ok b : Except String String)) (fun p _ => Except.ok p)
      { image := some "abc", prompt := none } =
      { status := 200, body := [("response", vision_prompt "Analyze this image.")] } :=
  vision_default_prompt (fun s => (Except.ok s : Except String String))
    (fun b => (Except.ok b : Except String String))
    { image := some "abc", prompt := none } "abc" "abc" rfl (by decide) rfl rfl
